import Mathlib

/-!
Shallow embedding of `ddpg_main.py` (ModelBasedDDPG training driver).

Conventions of the embedding:
* Python floats are modelled as exact rationals (`ℚ`); numpy element-wise
  arithmetic on equal-length batches becomes `List.zipWith`.
* `np.linalg.norm` is a real square root, which is irrational in general, so a
  normalized action `a / max(np.linalg.norm(a), 0.00001)` is represented
  symbolically by the pair `⟨a, max (sqNorm a) ε²⟩` (`ScaledVec`): the vector
  together with the *square* of the positive scalar it is divided by.  Since
  `√(max (‖a‖²) ε²) = max ‖a‖ ε`, the represented vector is exactly the
  source's value; theorems relate the pair to the real division via
  `Real.sqrt` in their statements.
* External collaborators (the `Network`, the pre-trained reward model, the
  replay buffer, the rollout manager, the image cache) live in separate
  modules that are not part of this repository's core file; they are modelled
  as abstract function parameters / environment records, exactly at the
  interface the core calls.
* Straight-line side effects of the core (training the critic, training the
  actor, updating target networks, log prints) are recorded as fields of an
  explicit result record, in program order.
-/

namespace DdpgMain

/-- Difference of two equal-length numpy vectors, element-wise
(`np.array(x) - np.array(y)`). -/
def vecSub (x y : List ℚ) : List ℚ := List.zipWith (fun a b => a - b) x y

/-- Squared Euclidean norm of a vector: `np.linalg.norm(a) ** 2`. -/
def sqNorm (a : List ℚ) : ℚ := (a.map (fun x => x * x)).sum

/-- The guard constant `0.00001` of `process_example_trajectory`. -/
def normGuard : ℚ := 1 / 100000

/-- Symbolic representation of a vector divided by a positive scalar:
`vec / √scaleSq`.  Used for the normalized actions
`a / max(np.linalg.norm(a), 0.00001)`, whose components are irrational in
general: there `scaleSq = max (sqNorm a) normGuard²` and
`√scaleSq = max ‖a‖ 0.00001`. -/
structure ScaledVec where
  vec : List ℚ
  scaleSq : ℚ
  deriving Repr, DecidableEq

/-- Embedding of `a / max(np.linalg.norm(a), 0.00001)` (line 247): the vector
`a` divided by the guarded norm, represented as a `ScaledVec`. -/
def normalizeAction (a : List ℚ) : ScaledVec :=
  ⟨a, max (sqNorm a) (normGuard * normGuard)⟩

/-- A state as stored in episodes and transitions:
`(joint_vector, pose_mapping, jacobian_or_none)`. -/
structure EpState (P J : Type) where
  joints : List ℚ
  pose : P
  jacobian : Option J

/-- An episode tuple
`(status, states, actions, rewards, goal_pose, goal_joints, workspace_id)` as
produced by the rollout manager / episode editor and consumed by
`process_example_trajectory` (which unpacks exactly the last three fields of
the agent episode) and by the failed-episode selection (which reads field 0,
the status). -/
structure Episode (G GJ W P J A : Type) where
  status : ℕ
  states : List (EpState P J)
  actions : List A
  rewards : List ℚ
  goal_pose : G
  goal_joints : GJ
  workspace_id : W

/-- Embedding of `process_example_trajectory` (lines 220-252).  Inputs: the
example (motion-planner) trajectory as a pair
`(example_trajectory, example_trajectory_poses)`, the agent episode (only its
goal pose, goal joints and workspace id are read), and the configuration value
`config['openrave_rl']['keep_alive_penalty']`.

* `example_trajectory = [j[1:] for j in example_trajectory]` drops the first
  coordinate of every joint configuration (`List.drop 1`).
* `status = 3` (goal reached always).
* `states` pairs each configuration with its pose and a `None` jacobian; the
  source indexes `example_trajectory_poses[i]` for `i < len(example_trajectory)`
  (an index error if the pose list is shorter), which `zip` reproduces on all
  non-crashing inputs.
* `actions` are the consecutive differences, each divided by its guarded norm.
* `rewards = [-keep_alive_penalty] * (len(actions) - 1) + [1.0]`; Lean's
  truncated `ℕ` subtraction matches Python's empty list for a negative
  repetition count. -/
def process_example_trajectory (G GJ W P J A : Type)
    (keep_alive_penalty : ℚ)
    (episode_example_trajectory : List (List ℚ) × List P)
    (episode_agent_trajectory : Episode G GJ W P J A) :
    Episode G GJ W P J ScaledVec :=
  let example_trajectory := episode_example_trajectory.1.map (List.drop 1)
  let states : List (EpState P J) :=
    (example_trajectory.zip episode_example_trajectory.2).map
      (fun sp => ⟨sp.1, sp.2, none⟩)
  let raw_actions := List.zipWith vecSub (example_trajectory.drop 1) example_trajectory
  let actions := raw_actions.map normalizeAction
  let rewards := List.replicate (actions.length - 1) (-keep_alive_penalty) ++ [(1 : ℚ)]
  { status := 3
    states := states
    actions := actions
    rewards := rewards
    goal_pose := episode_agent_trajectory.goal_pose
    goal_joints := episode_agent_trajectory.goal_joints
    workspace_id := episode_agent_trajectory.workspace_id }

/-- The consecutive raw differences of the processed example trajectory, for
stating theorems about `process_example_trajectory`. -/
def exampleDiffs (episode_example_trajectory : List (List ℚ) × List P) :
    List (List ℚ) :=
  let example_trajectory := episode_example_trajectory.1.map (List.drop 1)
  List.zipWith vecSub (example_trajectory.drop 1) example_trajectory

/-- Embedding of `unpack_state_batch` (lines 66-73), restricted to its first
output: `joints = [state[0] for state in state_batch]`.  The other two outputs
(the pose dictionary and the `None` jacobians) are discarded (`_, __`) at
every call site that the core reaches. -/
def unpack_state_batch (P J : Type) (state_batch : List (EpState P J)) :
    List (List ℚ) :=
  state_batch.map (fun s => s.joints)

/-- One row of the one-hot status matrix built in `score_for_hindsight`
(lines 89-94): a `np.zeros(3)` row with entry 2 set for a goal transition and
entry 0 set for a free transition. -/
def oneHotRow (is_goal : Bool) : List ℚ :=
  if is_goal then ([0, 0, 0] : List ℚ).set 2 1 else ([0, 0, 0] : List ℚ).set 0 1

/-- An augmented transition as zipped in `score_for_hindsight` (lines 78-87):
`(goal_pose, goal_joints, workspace_image, current_state, action_used, _,
is_goal, __)`; the two ignored components keep their own types. -/
structure AugTransition (G GJ W P J A X Y : Type) where
  goal_pose : G
  goal_joints : GJ
  workspace_image : W
  current_state : EpState P J
  action_used : A
  extra1 : X
  is_goal : Bool
  extra2 : Y

/-- Embedding of `score_for_hindsight` (lines 75-106).  The pre-trained reward
model is an external collaborator, abstracted as the function
`make_prediction : (current_joints, goal_joints, actions, goal_poses,
transition_labels) → rewards` (restricted to its first output, the reward
batch; the second output is ignored at this call site).  The body builds the
one-hot label matrix row by row over the transitions, unpacks the current
joints, and makes one batched prediction call over the whole buffer. -/
def score_for_hindsight (G GJ W P J A X Y : Type)
    (make_prediction :
      List (List ℚ) → List GJ → List A → List G → List (List ℚ) → List ℚ)
    (augmented_buffer : List (AugTransition G GJ W P J A X Y)) : List ℚ :=
  let is_goal_one_hot_list :=
    (augmented_buffer.map (fun t => t.is_goal)).map oneHotRow
  let current_joints :=
    unpack_state_batch P J (augmented_buffer.map (fun t => t.current_state))
  make_prediction current_joints
    (augmented_buffer.map (fun t => t.goal_joints))
    (augmented_buffer.map (fun t => t.action_used))
    (augmented_buffer.map (fun t => t.goal_pose))
    is_goal_one_hot_list

/-- `np.max` of a batch vector (defined on the nonempty batches the code ever
produces; the `[]` case is arbitrary since `np.max` raises there). -/
def listMax : List ℚ → ℚ
  | [] => 0
  | x :: xs => xs.foldl max x

/-- `np.min` of a batch vector (same convention as `listMax`). -/
def listMin : List ℚ → ℚ
  | [] => 0
  | x :: xs => xs.foldl min x

/-- The batch returned by `replay_buffer.sample_batch(batch_size)` and
unpacked in `update_model` (lines 129-138): eight index-aligned per-field
lists.  `terminated` is kept as the numeric value numpy coerces it to in
`1 - np.array(terminated)` (0 or 1 for the stored booleans). -/
structure Batch (G GJ W P J A : Type) where
  goal_pose : List G
  goal_joints : List GJ
  workspace_id : List W
  current_state : List (EpState P J)
  action : List A
  reward : List ℚ
  terminated : List ℚ
  next_state : List (EpState P J)

/-- The neural network collaborator, abstracted at the one interface point
`update_model` reads from it: `predict_policy_q(next_joints, workspace_image,
goal_pose, goal_joints, sess, use_online_network)` returning one Q-value per
batch row (the TF session is ambient and dropped). -/
structure Network (G GJ I : Type) where
  predict_policy_q :
    List (List ℚ) → Option (List I) → List G → List GJ → Bool → List ℚ

/-- Everything `update_model` does after computing the labels, recorded in
program order: the computed `q_label` vector, whether each of the two
out-of-range messages was printed (lines 170-173), the label vector handed to
`network.train_critic` (line 185), and the facts that `network.train_actor`
and `network.update_target_networks` were invoked (lines 190-195, reached
unconditionally). -/
structure UpdateResult where
  q_label : List ℚ
  out_of_range_max_printed : Bool
  out_of_range_min_printed : Bool
  critic_label_input : List ℚ
  actor_trained : Bool
  target_networks_updated : Bool

/-- Embedding of `update_model` (lines 124-201) applied to one sampled batch.
`image_lookup` models the optional `image_cache` (`None` outside vision
scenarios); `gamma = config['model']['gamma']`.

* `next_state_action_target_q` is the network's Q prediction on the
  next-state joints with `use_online_network=False` (the target networks).
* `q_label = reward + (1 - terminated) * gamma * next_state_action_target_q`,
  element-wise over the batch (the `squeeze`/`expand_dims` reshapes are
  identities on the value content).
* `limit = 1.0 / (1.0 - gamma)`; a message is printed iff
  `max_label > limit`, resp. `min_label < -limit` — both strict, and neither
  branch returns or raises: the critic update, actor update and target
  update below always execute. -/
def update_model (G GJ W P J A I : Type) (net : Network G GJ I)
    (image_lookup : Option (W → I)) (gamma : ℚ)
    (replay_buffer_batch : Batch G GJ W P J A) : UpdateResult :=
  let workspace_image : Option (List I) :=
    image_lookup.map (fun cache => replay_buffer_batch.workspace_id.map cache)
  let next_joints := unpack_state_batch P J replay_buffer_batch.next_state
  let next_state_action_target_q :=
    net.predict_policy_q next_joints workspace_image
      replay_buffer_batch.goal_pose replay_buffer_batch.goal_joints false
  let q_label :=
    List.zipWith3 (fun r t q => r + (1 - t) * gamma * q)
      replay_buffer_batch.reward replay_buffer_batch.terminated
      next_state_action_target_q
  let max_label := listMax q_label
  let min_label := listMin q_label
  let limit : ℚ := 1 / (1 - gamma)
  { q_label := q_label
    out_of_range_max_printed := decide (limit < max_label)
    out_of_range_min_printed := decide (min_label < -limit)
    critic_label_input := q_label
    actor_trained := true
    target_networks_updated := true }

/-- Embedding of the pure decision core of `do_test` (lines 293-308): from the
evaluation counts, the current `global_step` and the incoming best-model
record, compute `(is_best, best_model_global_step,
best_model_test_success_rate)`.  `rate = test_successful_episodes /
float(test_episodes)`; the record is replaced iff
`best_model_test_success_rate < rate` (strict). -/
def do_test (test_successful_episodes test_episodes : ℕ) (global_step : ℕ)
    (best_model_global_step : ℤ) (best_model_test_success_rate : ℚ) :
    Bool × ℤ × ℚ :=
  let rate : ℚ := (test_successful_episodes : ℚ) / (test_episodes : ℚ)
  if best_model_test_success_rate < rate then (true, (global_step : ℤ), rate)
  else (false, best_model_global_step, best_model_test_success_rate)

/-- The configuration values `run_for_config` reads in its main loop. -/
structure RunConfig where
  updates_cycle_count : ℕ
  batch_size : ℕ
  model_updates_per_cycle : ℕ
  test_every_cycles : ℕ

/-- The external collaborators of the main loop, abstracted at the values the
loop reads from them: `buffer_size i` is what `replay_buffer.size()` returns
in cycle `i` (after collection, editing, augmentation and hindsight insertion
for that cycle), and `test_result k = (test_successful_episodes,
test_episodes)` is what the `k`-th call to `trajectory_eval.eval` yields. -/
structure RunEnv where
  buffer_size : ℕ → ℕ
  test_result : ℕ → ℕ × ℕ

/-- The mutable state of `run_for_config`'s training loop (lines 379-381 set
it up; `best_model_path` starts as `None` at line 45 and is set to the saved
checkpoint whenever `do_test` reports a best model; we record the
`global_step` the checkpoint was saved at). -/
structure RunState where
  global_step : ℕ
  best_model_global_step : ℤ
  best_model_test_success_rate : ℚ
  best_model_path : Option ℕ
  updates_done : ℕ
  tests_done : ℕ
  cycles_started : ℕ

/-- Initial loop state: `global_step = 0`,
`best_model_global_step, best_model_test_success_rate = -1, -1.0`,
`best_model_path = None`. -/
def initialRunState : RunState :=
  { global_step := 0
    best_model_global_step := -1
    best_model_test_success_rate := -1
    best_model_path := none
    updates_done := 0
    tests_done := 0
    cycles_started := 0 }

/-- Apply one `do_test` call plus the caller's `if is_best: best_saver.save`
step (lines 493-500 and 514-521) to the loop state. -/
def applyTest (env : RunEnv) (s : RunState) : RunState :=
  let res := env.test_result s.tests_done
  let out := do_test res.1 res.2 s.global_step s.best_model_global_step
    s.best_model_test_success_rate
  { s with
    best_model_global_step := out.2.1
    best_model_test_success_rate := out.2.2
    best_model_path := if out.1 then some s.global_step else s.best_model_path
    tests_done := s.tests_done + 1 }

/-- One update cycle of `run_for_config` (the body of the `for update_index`
loop, lines 382-506, excluding the break check): data collection / editing /
augmentation / insertion are the collaborators' work and are summarised by
`env.buffer_size`; then, if `replay_buffer.size() > batch_size`, exactly
`model_updates_per_cycle` calls to `update_model` run, each incrementing
`global_step`; then, if `update_index % test_every_cycles == 0`, one
`do_test` runs (with the best-checkpoint save on `is_best`).  The
`latest_saver` save does not touch the loop state. -/
def runCycle (config : RunConfig) (env : RunEnv) (s : RunState) : RunState :=
  let update_index := s.cycles_started
  let s1 :=
    if config.batch_size < env.buffer_size update_index then
      { s with
        global_step := s.global_step + config.model_updates_per_cycle
        updates_done := s.updates_done + config.model_updates_per_cycle }
    else s
  let s2 :=
    if update_index % config.test_every_cycles = 0 then applyTest env s1 else s1
  { s2 with cycles_started := s2.cycles_started + 1 }

/-- The early-stop threshold of line 508: `0.99999`. -/
def stopThreshold : ℚ := 99999 / 100000

/-- The training loop with its break check: run up to `n` more cycles,
breaking after any cycle at whose end
`best_model_test_success_rate > 0.99999` (lines 507-512). -/
def runCycles (config : RunConfig) (env : RunEnv) : ℕ → RunState → RunState
  | 0, s => s
  | n + 1, s =>
    let s1 := runCycle config env s
    if stopThreshold < s1.best_model_test_success_rate then s1
    else runCycles config env n s1

/-- What `run_for_config` does after the loop, as far as the loop state and
control flow are concerned (lines 514-524): the final `do_test` (with
best-checkpoint save), then `do_end_of_run_validation`, which restores from
`best_model_path`. -/
structure RunOutcome where
  final : RunState
  final_test_ran : Bool
  validation_ran : Bool
  validation_restore_path : Option ℕ

/-- Embedding of the control flow of `run_for_config` (lines 379-524): the
loop over `updates_cycle_count` cycles with early break, the final test, and
the end-of-run validation pass restoring the best checkpoint. -/
def run_for_config (config : RunConfig) (env : RunEnv) : RunOutcome :=
  let s := runCycles config env config.updates_cycle_count initialRunState
  let s1 := applyTest env s
  { final := s1
    final_test_ran := true
    validation_ran := true
    validation_restore_path := s1.best_model_path }

/-- Embedding of the failed-episode augmentation block of `run_for_config`
(lines 404-427): if `failed_motion_planner_trajectories > 0`, collect the
indices of altered episodes whose status (field 0) is not 3, keep the first
`failed_motion_planner_trajectories` of them, and synthesize one example
episode per kept index from the corresponding example trajectory
(`List.enum` supplies the `range(len(altered_episodes))` indexing; indexing
`episodes_example_trajectory[i]` is total here because both lists come from
unzipping the same rollout results).  The subsequent
`motion_planner_episode_editor.process_episodes` call belongs to the external
episode editor and is outside this function. -/
def failedMotionPlannerEpisodes (G GJ W P J A : Type)
    (failed_motion_planner_trajectories : ℕ) (keep_alive_penalty : ℚ)
    (episodes_example_trajectory : List (List (List ℚ) × List P))
    (altered_episodes : List (Episode G GJ W P J A)) :
    List (Episode G GJ W P J ScaledVec) :=
  if 0 < failed_motion_planner_trajectories then
    let failed_episodes_indices :=
      (altered_episodes.enum.filter (fun p => p.2.status ≠ 3)).take
        failed_motion_planner_trajectories
    failed_episodes_indices.map (fun p =>
      process_example_trajectory G GJ W P J A keep_alive_penalty
        (episodes_example_trajectory.getD p.1 ([], [])) p.2)
  else []

/-! ## Theorems -/

/-- C2: In `update_model`, the out-of-range message is emitted if and only if
the maximum computed label is strictly greater than `1/(1-gamma)` or the
minimum label is strictly less than `-1/(1-gamma)`; a label exactly equal to
the bound emits no message; and in either case the message is log-only: the
critic update, actor update, and target-network update still execute in that
same call. -/
theorem update_model_out_of_range_log_only (G GJ W P J A I : Type)
    (net : Network G GJ I) (image_lookup : Option (W → I)) (gamma : ℚ)
    (b : Batch G GJ W P J A) :
    let r := update_model G GJ W P J A I net image_lookup gamma b
    let limit : ℚ := 1 / (1 - gamma)
    ((r.out_of_range_max_printed || r.out_of_range_min_printed) = true ↔
      (limit < listMax r.q_label ∨ listMin r.q_label < -limit))
    ∧ (listMax r.q_label = limit → r.out_of_range_max_printed = false)
    ∧ (listMin r.q_label = -limit → r.out_of_range_min_printed = false)
    ∧ r.critic_label_input = r.q_label
    ∧ r.actor_trained = true
    ∧ r.target_networks_updated = true := by
  refine ⟨?_, ?_, ?_, rfl, rfl, rfl⟩
  · simp [update_model]
  · intro h
    simp only [update_model] at h ⊢
    simp [h]
  · intro h
    simp only [update_model] at h ⊢
    simp [h]

/-- C2 witness: a concrete batch (reward 1, non-terminal, next target Q 10,
gamma 0.9) whose label is exactly the bound 10 and prints nothing, applied
through the theorem. -/
theorem update_model_out_of_range_log_only_witness :
    listMax (update_model Unit Unit Unit Unit Unit Unit Unit
        ⟨fun _ _ _ _ _ => [10]⟩ none (9 / 10)
        { goal_pose := [()], goal_joints := [()], workspace_id := [()]
          current_state := [⟨[0], (), none⟩], action := [()], reward := [1]
          terminated := [0], next_state := [⟨[1], (), none⟩] }).q_label =
      1 / (1 - 9 / 10)
    ∧ (update_model Unit Unit Unit Unit Unit Unit Unit
        ⟨fun _ _ _ _ _ => [10]⟩ none (9 / 10)
        { goal_pose := [()], goal_joints := [()], workspace_id := [()]
          current_state := [⟨[0], (), none⟩], action := [()], reward := [1]
          terminated := [0], next_state := [⟨[1], (), none⟩] }).out_of_range_max_printed = false := by
  have hmax : listMax (update_model Unit Unit Unit Unit Unit Unit Unit
      ⟨fun _ _ _ _ _ => [10]⟩ none (9 / 10)
      { goal_pose := [()], goal_joints := [()], workspace_id := [()]
        current_state := [⟨[0], (), none⟩], action := [()], reward := [1]
        terminated := [0], next_state := [⟨[1], (), none⟩] }).q_label =
      1 / (1 - 9 / 10) := by
    norm_num [update_model, listMax, List.zipWith3, unpack_state_batch]
  exact ⟨hmax, (update_model_out_of_range_log_only Unit Unit Unit Unit Unit Unit Unit
    ⟨fun _ _ _ _ _ => [10]⟩ none (9 / 10) _).2.1 hmax⟩

/-- C6: `do_test` replaces the recorded best model iff the new test success
rate (successful / episodes) is strictly greater than the previous best; on
replacement it returns `is_best = true` and updates both
`best_model_global_step` and `best_model_test_success_rate`, otherwise it
returns `is_best = false` and leaves both unchanged. -/
theorem do_test_best_replacement (succ eps gs : ℕ) (bs : ℤ) (br : ℚ) :
    ((do_test succ eps gs bs br).1 = true ↔ br < (succ : ℚ) / (eps : ℚ))
    ∧ ((do_test succ eps gs bs br).1 = true →
        (do_test succ eps gs bs br).2.1 = (gs : ℤ)
        ∧ (do_test succ eps gs bs br).2.2 = (succ : ℚ) / (eps : ℚ))
    ∧ ((do_test succ eps gs bs br).1 = false →
        (do_test succ eps gs bs br).2.1 = bs
        ∧ (do_test succ eps gs bs br).2.2 = br) := by
  by_cases h : br < (succ : ℚ) / (eps : ℚ) <;> simp [do_test, h]

/-- C6 witness: with previous best 0 and a perfect 1-of-1 test, the theorem
yields replacement with the new rate recorded. -/
theorem do_test_best_replacement_witness :
    (do_test 1 1 5 (-1) 0).1 = true ∧ (do_test 1 1 5 (-1) 0).2.2 = 1 := by
  have h := do_test_best_replacement 1 1 5 (-1) 0
  have h1 : (do_test 1 1 5 (-1) 0).1 = true := h.1.mpr (by norm_num)
  have h2 := (h.2.1 h1).2
  exact ⟨h1, by rw [h2]; norm_num⟩

/-- C3: In every update cycle, the training phase runs iff the replay
buffer's size is strictly greater than the batch size: the number of gradient
updates performed in the cycle (each incrementing `global_step`) is exactly
`model_updates_per_cycle` when `size > batch_size` and exactly 0 otherwise
(the cycle still completes — no error). -/
theorem runCycle_training_iff_buffer_exceeds_batch (config : RunConfig)
    (env : RunEnv) (s : RunState) :
    (runCycle config env s).updates_done =
      s.updates_done +
        (if config.batch_size < env.buffer_size s.cycles_started then
          config.model_updates_per_cycle else 0)
    ∧ (runCycle config env s).global_step =
      s.global_step +
        (if config.batch_size < env.buffer_size s.cycles_started then
          config.model_updates_per_cycle else 0) := by
  by_cases hb : config.batch_size < env.buffer_size s.cycles_started <;>
    by_cases ht : s.cycles_started % config.test_every_cycles = 0 <;>
      simp [runCycle, applyTest, hb, ht]

/-- C8: the transition-label matrix `score_for_hindsight` hands to the reward
model has one row per transition, each row one-hot over 3 entries with index
2 set exactly for goal transitions, index 0 set exactly for non-goal
transitions and index 1 never set; and the rewards are obtained by a single
batched prediction call over the per-field lists mapped in input order. -/
theorem score_for_hindsight_one_hot_batched (G GJ W P J A X Y : Type)
    (make_prediction :
      List (List ℚ) → List GJ → List A → List G → List (List ℚ) → List ℚ)
    (augmented_buffer : List (AugTransition G GJ W P J A X Y)) :
    let labels := (augmented_buffer.map (fun t => t.is_goal)).map oneHotRow
    score_for_hindsight G GJ W P J A X Y make_prediction augmented_buffer =
      make_prediction
        (unpack_state_batch P J (augmented_buffer.map (fun t => t.current_state)))
        (augmented_buffer.map (fun t => t.goal_joints))
        (augmented_buffer.map (fun t => t.action_used))
        (augmented_buffer.map (fun t => t.goal_pose))
        labels
    ∧ labels.length = augmented_buffer.length
    ∧ ∀ g : Bool,
        (oneHotRow g).length = 3
        ∧ (oneHotRow g).getD 2 0 = (if g then (1 : ℚ) else 0)
        ∧ (oneHotRow g).getD 0 0 = (if g then (0 : ℚ) else 1)
        ∧ (oneHotRow g).getD 1 0 = 0
        ∧ (oneHotRow g).sum = 1 := by
  refine ⟨rfl, by simp, ?_⟩
  intro g
  cases g <;> exact ⟨rfl, rfl, rfl, rfl, by norm_num [oneHotRow]⟩

/-- C5: expert-trajectory episodes are synthesized exactly for the first
`failed_motion_planner_trajectories` altered episodes whose status is not 3,
in episode order; the number synthesized is
`min failed_motion_planner_trajectories (number of failed episodes)`; every
selected episode has status ≠ 3; and with the count configured to 0 nothing
is synthesized. -/
theorem failedMotionPlannerEpisodes_selection (G GJ W P J A : Type) (N : ℕ)
    (penalty : ℚ) (examples : List (List (List ℚ) × List P))
    (altered : List (Episode G GJ W P J A)) :
    failedMotionPlannerEpisodes G GJ W P J A N penalty examples altered =
      ((altered.enum.filter (fun p => p.2.status ≠ 3)).take N).map (fun p =>
        process_example_trajectory G GJ W P J A penalty
          (examples.getD p.1 ([], [])) p.2)
    ∧ (failedMotionPlannerEpisodes G GJ W P J A N penalty examples altered).length =
        min N (altered.enum.filter (fun p => p.2.status ≠ 3)).length
    ∧ ((altered.enum.filter (fun p => p.2.status ≠ 3)).take N).all
        (fun p => decide (p.2.status ≠ 3)) = true
    ∧ failedMotionPlannerEpisodes G GJ W P J A 0 penalty examples altered = [] := by
  have hmain : failedMotionPlannerEpisodes G GJ W P J A N penalty examples altered =
      ((altered.enum.filter (fun p => p.2.status ≠ 3)).take N).map (fun p =>
        process_example_trajectory G GJ W P J A penalty
          (examples.getD p.1 ([], [])) p.2) := by
    rcases Nat.eq_zero_or_pos N with h0 | hpos
    · subst h0; simp [failedMotionPlannerEpisodes]
    · unfold failedMotionPlannerEpisodes
      rw [if_pos hpos]
  refine ⟨hmain, ?_, ?_, by simp [failedMotionPlannerEpisodes]⟩
  · rw [hmain]
    simp [List.length_take]
  · rw [List.all_eq_true]
    intro p hp
    have hmem : p ∈ altered.enum.filter (fun p => p.2.status ≠ 3) :=
      List.take_subset N _ hp
    have := List.of_mem_filter hmem
    simpa using this

/-- Index-wise description of `List.zipWith3`: within bounds, the `i`-th
entry is `f` applied to the `i`-th entries of the three inputs. -/
theorem zipWith3_getD (f : ℚ → ℚ → ℚ → ℚ) :
    ∀ (l1 l2 l3 : List ℚ) (i : ℕ),
      i < (List.zipWith3 f l1 l2 l3).length →
      (List.zipWith3 f l1 l2 l3).getD i 0 =
        f (l1.getD i 0) (l2.getD i 0) (l3.getD i 0)
  | _ :: _, _ :: _, _ :: _, 0, _ => rfl
  | _ :: xs, _ :: ys, _ :: zs, i + 1, h =>
    zipWith3_getD f xs ys zs i (Nat.lt_of_succ_lt_succ h)

/-- C1: for every sampled batch, the critic label at index `i` equals
`reward[i] + (1 - terminated[i]) * gamma * Q[i]` where `Q` is the network's
policy-Q prediction on the next-state joints with `use_online_network =
false` (the target networks), and the label vector handed to the critic
training step is exactly this computed vector. -/
theorem update_model_q_label (G GJ W P J A I : Type) (net : Network G GJ I)
    (image_lookup : Option (W → I)) (gamma : ℚ) (b : Batch G GJ W P J A)
    (i : ℕ)
    (h : i < (update_model G GJ W P J A I net image_lookup gamma b).q_label.length) :
    (update_model G GJ W P J A I net image_lookup gamma b).q_label.getD i 0 =
      b.reward.getD i 0 +
        (1 - b.terminated.getD i 0) * gamma *
          (net.predict_policy_q (unpack_state_batch P J b.next_state)
            (image_lookup.map (fun cache => b.workspace_id.map cache))
            b.goal_pose b.goal_joints false).getD i 0
    ∧ (update_model G GJ W P J A I net image_lookup gamma b).critic_label_input =
        (update_model G GJ W P J A I net image_lookup gamma b).q_label := by
  exact ⟨zipWith3_getD (fun r t q => r + (1 - t) * gamma * q) b.reward
    b.terminated _ i h, rfl⟩

/-- C1 witness: a 1-row batch (reward 1, non-terminal, target Q 10, gamma
0.9) whose computed label is `1 + (1-0)*0.9*10 = 10`, via the theorem. -/
theorem update_model_q_label_witness :
    0 < (update_model Unit Unit Unit Unit Unit Unit Unit
        ⟨fun _ _ _ _ _ => [10]⟩ none (9 / 10)
        { goal_pose := [()], goal_joints := [()], workspace_id := [()]
          current_state := [⟨[0], (), none⟩], action := [()], reward := [1]
          terminated := [0], next_state := [⟨[1], (), none⟩] }).q_label.length
    ∧ (update_model Unit Unit Unit Unit Unit Unit Unit
        ⟨fun _ _ _ _ _ => [10]⟩ none (9 / 10)
        { goal_pose := [()], goal_joints := [()], workspace_id := [()]
          current_state := [⟨[0], (), none⟩], action := [()], reward := [1]
          terminated := [0], next_state := [⟨[1], (), none⟩] }).q_label.getD 0 0 =
      1 + (1 - 0) * (9 / 10) * 10 := by
  refine ⟨Nat.zero_lt_one, ?_⟩
  have h := (update_model_q_label Unit Unit Unit Unit Unit Unit Unit
    ⟨fun _ _ _ _ _ => [10]⟩ none (9 / 10)
    { goal_pose := [()], goal_joints := [()], workspace_id := [()]
      current_state := [⟨[0], (), none⟩], action := [()], reward := [1]
      terminated := [0], next_state := [⟨[1], (), none⟩] } 0 Nat.zero_lt_one).1
  simpa using h

/-- A squared Euclidean norm is nonnegative. -/
theorem sqNorm_nonneg (a : List ℚ) : 0 ≤ sqNorm a := by
  unfold sqNorm
  apply List.sum_nonneg
  intro x hx
  obtain ⟨y, _, rfl⟩ := List.mem_map.mp hx
  exact mul_self_nonneg y

/-- The square of the norm guard is positive. -/
theorem normGuard_sq_pos : 0 < normGuard * normGuard := by norm_num [normGuard]

/-- The real square root of the symbolic squared scale
`max (sqNorm a) normGuard²` is exactly the source's guarded denominator
`max ‖a‖ 0.00001`. -/
theorem sqrt_scaleSq (q : ℚ) :
    Real.sqrt (((max q (normGuard * normGuard) : ℚ) : ℝ)) =
      max (Real.sqrt ((q : ℝ))) (1 / 100000 : ℝ) := by
  have hg : ((normGuard : ℚ) : ℝ) = 1 / 100000 := by norm_num [normGuard]
  have h1 : ((max q (normGuard * normGuard) : ℚ) : ℝ) =
      max ((q : ℝ)) (((normGuard * normGuard : ℚ) : ℝ)) :=
    Rat.cast_strictMono.monotone.map_max
  have h2 : ((normGuard * normGuard : ℚ) : ℝ) = (1 / 100000 : ℝ) * (1 / 100000 : ℝ) := by
    push_cast
    rw [hg]
  have hmono : Monotone Real.sqrt := fun a b h => Real.sqrt_le_sqrt h
  rw [h1, h2, hmono.map_max, Real.sqrt_mul_self (by norm_num)]

/-- C4: `process_example_trajectory` returns a synthetic episode with
terminal status 3 (goal reached), goal pose / goal joints / workspace id
copied from the agent episode, actions equal to the consecutive differences
of the (first-coordinate-stripped) reference configurations each divided by
`max(norm, 0.00001)` — witnessed by the action list being the normalized
differences and by each action's scale being exactly the guarded norm — and
rewards `-keep_alive_penalty` everywhere except a final `1.0`. -/
theorem process_example_trajectory_synthesis (G GJ W P J A : Type)
    (keep_alive_penalty : ℚ) (ex : List (List ℚ) × List P)
    (ep : Episode G GJ W P J A) :
    let r := process_example_trajectory G GJ W P J A keep_alive_penalty ex ep
    r.status = 3
    ∧ r.goal_pose = ep.goal_pose
    ∧ r.goal_joints = ep.goal_joints
    ∧ r.workspace_id = ep.workspace_id
    ∧ r.actions = (exampleDiffs ex).map normalizeAction
    ∧ r.actions.map (fun a => Real.sqrt ((a.scaleSq : ℝ))) =
        (exampleDiffs ex).map
          (fun d => max (Real.sqrt ((sqNorm d : ℝ))) (1 / 100000 : ℝ))
    ∧ r.rewards =
        List.replicate (r.actions.length - 1) (-keep_alive_penalty) ++ [(1 : ℚ)] := by
  have hact : (process_example_trajectory G GJ W P J A keep_alive_penalty
      ex ep).actions = (exampleDiffs ex).map normalizeAction := rfl
  refine ⟨rfl, rfl, rfl, rfl, hact, ?_, rfl⟩
  rw [hact, List.map_map]
  exact List.map_congr_left fun d _ => sqrt_scaleSq (sqNorm d)

/-- C9: every action returned by `process_example_trajectory` is divided by
the guarded positive scale `max (sqNorm diff) normGuard²` — so the
normalization is defined even for identical consecutive configurations — and
the Euclidean norm of the represented action,
`√(sqNorm vec / scaleSq)`, is at most 1, and exactly 1 whenever the raw
difference has norm at least `0.00001`. -/
theorem process_example_trajectory_action_norm (G GJ W P J A : Type)
    (keep_alive_penalty : ℚ) (ex : List (List ℚ) × List P)
    (ep : Episode G GJ W P J A) (a : ScaledVec)
    (ha : a ∈ (process_example_trajectory G GJ W P J A keep_alive_penalty
      ex ep).actions) :
    a.scaleSq = max (sqNorm a.vec) (normGuard * normGuard)
    ∧ 0 < a.scaleSq
    ∧ Real.sqrt (((sqNorm a.vec / a.scaleSq : ℚ) : ℝ)) ≤ 1
    ∧ (normGuard * normGuard ≤ sqNorm a.vec →
        Real.sqrt (((sqNorm a.vec / a.scaleSq : ℚ) : ℝ)) = 1) := by
  replace ha : a ∈ (exampleDiffs ex).map normalizeAction := ha
  obtain ⟨d, _, rfl⟩ := List.mem_map.mp ha
  have hpos : 0 < max (sqNorm d) (normGuard * normGuard) :=
    lt_max_of_lt_right normGuard_sq_pos
  refine ⟨rfl, hpos, ?_, ?_⟩
  · have hle : (sqNorm d / max (sqNorm d) (normGuard * normGuard) : ℚ) ≤ 1 :=
      (div_le_one hpos).mpr (le_max_left _ _)
    have hle' : ((sqNorm d / max (sqNorm d) (normGuard * normGuard) : ℚ) : ℝ) ≤ 1 := by
      exact_mod_cast hle
    calc Real.sqrt _ ≤ Real.sqrt 1 := Real.sqrt_le_sqrt hle'
      _ = 1 := Real.sqrt_one
  · intro h
    have hmax : max (sqNorm d) (normGuard * normGuard) = sqNorm d := max_eq_left h
    have hdpos : (0 : ℚ) < sqNorm d := lt_of_lt_of_le normGuard_sq_pos h
    have hone : (sqNorm d / max (sqNorm d) (normGuard * normGuard) : ℚ) = 1 := by
      rw [hmax]
      exact div_self (ne_of_gt hdpos)
    rw [show (normalizeAction d).vec = d from rfl, show (normalizeAction d).scaleSq =
      max (sqNorm d) (normGuard * normGuard) from rfl, hone]
    rw [Rat.cast_one, Real.sqrt_one]

/-- A failed agent episode with empty content, for concrete instantiation. -/
def sampleEpisode : Episode Unit Unit Unit Unit Unit Unit :=
  { status := 2, states := [], actions := [], rewards := []
    goal_pose := (), goal_joints := (), workspace_id := () }

/-- A two-configuration reference trajectory whose consecutive
configurations are identical, for concrete instantiation. -/
def sampleExampleTrajectory : List (List ℚ) × List Unit :=
  ([[9, 1, 2], [9, 1, 2]], [(), ()])

/-- C9 witness: for the identical-configuration reference trajectory, the
zero difference's action is in the output and its guarded scale is positive,
via the theorem. -/
theorem process_example_trajectory_action_norm_witness :
    normalizeAction (vecSub [1, 2] [1, 2]) ∈
      (process_example_trajectory Unit Unit Unit Unit Unit Unit 0
        sampleExampleTrajectory sampleEpisode).actions
    ∧ 0 < (normalizeAction (vecSub [1, 2] [1, 2])).scaleSq :=
  ⟨List.mem_cons_self _ _,
    (process_example_trajectory_action_norm Unit Unit Unit Unit Unit Unit 0
      sampleExampleTrajectory sampleEpisode _ (List.mem_cons_self _ _)).2.1⟩

/-- `applyTest` does not change the cycle counter. -/
theorem applyTest_cycles_started (env : RunEnv) (s : RunState) :
    (applyTest env s).cycles_started = s.cycles_started := rfl

/-- Each cycle increments the cycle counter by exactly one. -/
theorem runCycle_cycles_started (config : RunConfig) (env : RunEnv)
    (s : RunState) :
    (runCycle config env s).cycles_started = s.cycles_started + 1 := by
  by_cases hb : config.batch_size < env.buffer_size s.cycles_started <;>
    by_cases ht : s.cycles_started % config.test_every_cycles = 0 <;>
      simp [runCycle, applyTest, hb, ht]

/-- Running at most `n` further cycles increases the cycle counter by at most
`n`. -/
theorem runCycles_started_le (config : RunConfig) (env : RunEnv) :
    ∀ (n : ℕ) (s : RunState),
      (runCycles config env n s).cycles_started ≤ s.cycles_started + n := by
  intro n
  induction n with
  | zero => intro s; simp [runCycles]
  | succ n ih =>
    intro s
    simp only [runCycles]
    split
    · rw [runCycle_cycles_started]; omega
    · calc (runCycles config env n (runCycle config env s)).cycles_started ≤
          (runCycle config env s).cycles_started + n := ih _
        _ ≤ s.cycles_started + (n + 1) := by rw [runCycle_cycles_started]; omega

/-- C7: the training loop executes at most `updates_cycle_count` cycles; once
the best recorded test success rate ends a cycle strictly above `0.99999` no
further cycle begins (the loop returns right after that cycle); and the final
test and the best-model validation pass still run after the loop. -/
theorem run_for_config_termination (config : RunConfig) (env : RunEnv) :
    (run_for_config config env).final.cycles_started ≤ config.updates_cycle_count
    ∧ (∀ (n : ℕ) (s : RunState),
        stopThreshold < (runCycle config env s).best_model_test_success_rate →
        runCycles config env (n + 1) s = runCycle config env s)
    ∧ (run_for_config config env).final_test_ran = true
    ∧ (run_for_config config env).validation_ran = true := by
  refine ⟨?_, ?_, rfl, rfl⟩
  · have h := runCycles_started_le config env config.updates_cycle_count
      initialRunState
    have hA : (run_for_config config env).final.cycles_started =
        (runCycles config env config.updates_cycle_count
          initialRunState).cycles_started := rfl
    rw [hA]
    simpa [initialRunState] using h
  · intro n s h
    simp only [runCycles]
    rw [if_pos h]

/-- A loop configuration for concrete instantiation: test every cycle, empty
buffer. -/
def sampleRunConfig : RunConfig :=
  { updates_cycle_count := 10, batch_size := 0, model_updates_per_cycle := 3
    test_every_cycles := 1 }

/-- A loop environment for concrete instantiation: the buffer stays empty and
every evaluation succeeds on its single episode. -/
def sampleRunEnv : RunEnv :=
  { buffer_size := fun _ => 0, test_result := fun _ => (1, 1) }

/-- C7 witness: with a perfect test in the very first cycle the best rate ends
the cycle above the threshold, and the loop indeed runs no further cycle. -/
theorem run_for_config_termination_witness :
    stopThreshold <
      (runCycle sampleRunConfig sampleRunEnv initialRunState).best_model_test_success_rate
    ∧ runCycles sampleRunConfig sampleRunEnv 1 initialRunState =
        runCycle sampleRunConfig sampleRunEnv initialRunState := by
  have h : stopThreshold <
      (runCycle sampleRunConfig sampleRunEnv initialRunState).best_model_test_success_rate := by
    norm_num [runCycle, applyTest, do_test, initialRunState, sampleRunConfig,
      sampleRunEnv, stopThreshold]
  exact ⟨h, (run_for_config_termination sampleRunConfig sampleRunEnv).2.1 0
    initialRunState h⟩

/-- A test success rate is a quotient of counts, hence at least 0, hence
strictly above the initial best of `-1.0`. -/
theorem neg_one_lt_rate (succ eps : ℕ) : (-1 : ℚ) < (succ : ℚ) / (eps : ℚ) :=
  lt_of_lt_of_le (by norm_num)
    (div_nonneg (Nat.cast_nonneg _) (Nat.cast_nonneg _))

/-- `do_test` against the initial best rate `-1.0` always reports a best. -/
theorem do_test_neg_one_is_best (succ eps gs : ℕ) (bs : ℤ) :
    (do_test succ eps gs bs (-1)).1 = true := by
  unfold do_test
  rw [if_pos (neg_one_lt_rate succ eps)]

/-- Invariant tying the best checkpoint path to the best rate: either a best
checkpoint has been saved, or no test has beaten the initial `-1.0` yet. -/
def bestPathRecorded (s : RunState) : Prop :=
  s.best_model_path.isSome = true ∨ s.best_model_test_success_rate = -1

/-- After any `do_test`-plus-save step on a state satisfying the invariant,
a best checkpoint path is recorded. -/
theorem applyTest_isSome (env : RunEnv) (s : RunState)
    (h : bestPathRecorded s) :
    ((applyTest env s).best_model_path).isSome = true := by
  rcases h with hs | hr
  · simp only [applyTest]
    split <;> simp [hs]
  · simp only [applyTest]
    rw [hr, do_test_neg_one_is_best]
    simp

/-- One cycle preserves the best-checkpoint invariant. -/
theorem bestPathRecorded_runCycle (config : RunConfig) (env : RunEnv)
    (s : RunState) (h : bestPathRecorded s) :
    bestPathRecorded (runCycle config env s) := by
  by_cases ht : s.cycles_started % config.test_every_cycles = 0 <;>
    by_cases hb : config.batch_size < env.buffer_size s.cycles_started
  · simp only [runCycle]
    rw [if_pos hb, if_pos ht]
    exact Or.inl (applyTest_isSome env _ h)
  · simp only [runCycle]
    rw [if_neg hb, if_pos ht]
    exact Or.inl (applyTest_isSome env _ h)
  · simp only [runCycle]
    rw [if_pos hb, if_neg ht]
    exact h
  · simp only [runCycle]
    rw [if_neg hb, if_neg ht]
    exact h

/-- The whole loop preserves the best-checkpoint invariant. -/
theorem bestPathRecorded_runCycles (config : RunConfig) (env : RunEnv) :
    ∀ (n : ℕ) (s : RunState), bestPathRecorded s →
      bestPathRecorded (runCycles config env n s) := by
  intro n
  induction n with
  | zero => intro s h; exact h
  | succ n ih =>
    intro s h
    simp only [runCycles]
    split
    · exact bestPathRecorded_runCycle config env s h
    · exact ih _ (bestPathRecorded_runCycle config env s h)

/-- C10: since `best_model_test_success_rate` starts at `-1.0` and every test
success rate is at least 0, the first `do_test` of a run always reports a new
best; consequently, by the time `do_end_of_run_validation` restores the best
checkpoint (which is after the unconditional final test), `best_model_path`
is non-`None`. -/
theorem first_test_best_and_validation_path (config : RunConfig)
    (env : RunEnv) :
    (∀ (succ eps gs : ℕ) (bs : ℤ), (do_test succ eps gs bs (-1)).1 = true)
    ∧ ((run_for_config config env).validation_restore_path).isSome = true := by
  refine ⟨fun succ eps gs bs => do_test_neg_one_is_best succ eps gs bs, ?_⟩
  have hP : bestPathRecorded
      (runCycles config env config.updates_cycle_count initialRunState) :=
    bestPathRecorded_runCycles config env _ _ (Or.inr rfl)
  exact applyTest_isSome env _ hP

end DdpgMain
